import Mathlib

/-!
Verification development for the python-libgqe sensor dashboard.

The definitions below are a shallow embedding of the repository's code:

* `api_server.py` — the shared telemetry store (`shared_data`,
  `update_shared_data`), the REST queries (`get_current`, `get_history`,
  `get_stats`) and the WebSocket broadcast (`broadcast_to_websockets`).
* `graph_faster.py` — the background reader loops (`cpm_reader_loop`,
  `emf_reader_loop`), modelled as one-iteration step functions over an
  explicit reader state.

Python floats are modelled as rationals (`ℚ`); machine behaviour that the
claims do not touch (float rounding, the GUI, real sockets) is out of scope.
-/

/-- The `shared_data['current']` dict of `api_server.py`: one value per key. -/
structure Current where
  timestamp : ℚ
  cpm_h : ℚ
  cpm_l : ℚ
  emf : ℚ
  rf : ℚ
  ef : ℚ
  altitude : ℚ
  latitude : ℚ
  longitude : ℚ
  velocity : ℚ
deriving DecidableEq

/-- The `shared_data['history']` dict of `api_server.py`: eight keyed lists.
Note that `latitude` and `longitude` have no history list in the source. -/
structure History where
  timestamps : List ℚ
  cpm_h : List ℚ
  cpm_l : List ℚ
  emf : List ℚ
  rf : List ℚ
  ef : List ℚ
  altitude : List ℚ
  velocity : List ℚ
deriving DecidableEq

/-- The whole `shared_data` structure of `api_server.py`. -/
structure SharedData where
  current : Current
  history : History
deriving DecidableEq

/-- One call's worth of arguments to `update_shared_data` in `api_server.py`:
a full sensor sample. -/
structure Sample where
  timestamp : ℚ
  cpm_h : ℚ
  cpm_l : ℚ
  emf : ℚ
  rf : ℚ
  ef : ℚ
  altitude : ℚ
  latitude : ℚ
  longitude : ℚ
  velocity : ℚ
deriving DecidableEq

/-- The module-level initial value of `shared_data['current']`: all zeros. -/
def initCurrent : Current :=
  ⟨0, 0, 0, 0, 0, 0, 0, 0, 0, 0⟩

/-- The module-level initial value of `shared_data['history']`: empty lists. -/
def initHistory : History :=
  ⟨[], [], [], [], [], [], [], []⟩

/-- The module-level initial value of `shared_data`. -/
def initSharedData : SharedData :=
  ⟨initCurrent, initHistory⟩

/-- The dict literal assigned to `shared_data['current']` inside
`update_shared_data`. -/
def currentOfSample (s : Sample) : Current :=
  ⟨s.timestamp, s.cpm_h, s.cpm_l, s.emf, s.rf, s.ef,
   s.altitude, s.latitude, s.longitude, s.velocity⟩

/-- The eight `append` calls in `update_shared_data`: one element is appended
to each history list (latitude and longitude are not appended). -/
def appendSample (s : Sample) (h : History) : History :=
  ⟨h.timestamps ++ [s.timestamp], h.cpm_h ++ [s.cpm_h], h.cpm_l ++ [s.cpm_l],
   h.emf ++ [s.emf], h.rf ++ [s.rf], h.ef ++ [s.ef],
   h.altitude ++ [s.altitude], h.velocity ++ [s.velocity]⟩

/-- The Python slice `xs[-n:]`: the last `n` elements, the whole list when
`n = 0` (Python's `xs[-0:]` is `xs[0:]`). -/
def pySliceLast (n : Nat) (xs : List ℚ) : List ℚ :=
  if n = 0 then xs else xs.drop (xs.length - n)

/-- The trim step of `update_shared_data` on one history list:
`if len(xs) > max_points: xs = xs[-max_points:]`. -/
def trimList (maxPoints : Nat) (xs : List ℚ) : List ℚ :=
  if xs.length > maxPoints then pySliceLast maxPoints xs else xs

/-- The `for key in shared_data['history']` trim loop: the same cap is applied
to every key. -/
def trimHistory (maxPoints : Nat) (h : History) : History :=
  ⟨trimList maxPoints h.timestamps, trimList maxPoints h.cpm_h,
   trimList maxPoints h.cpm_l, trimList maxPoints h.emf,
   trimList maxPoints h.rf, trimList maxPoints h.ef,
   trimList maxPoints h.altitude, trimList maxPoints h.velocity⟩

/-- `update_shared_data` with the retention cap as a parameter: replace the
current snapshot, append the sample to every history list, then trim every
list to the last `cap` points. -/
def updateCap (cap : Nat) (s : Sample) (d : SharedData) : SharedData :=
  ⟨currentOfSample s, trimHistory cap (appendSample s d.history)⟩

/-- `update_shared_data` of `api_server.py`; the source hardcodes
`max_points = 1000`. -/
def update_shared_data (s : Sample) (d : SharedData) : SharedData :=
  updateCap 1000 s d

/-- A sequence of `update_shared_data` calls applied in order. -/
def applyWrites (d : SharedData) (ws : List Sample) : SharedData :=
  ws.foldl (fun acc s => update_shared_data s acc) d

/-- A sequence of cap-parameterised writes applied in order. -/
def applyWritesCap (cap : Nat) (d : SharedData) (ws : List Sample) : SharedData :=
  ws.foldl (fun acc s => updateCap cap s acc) d

/-- The `/api/current` handler `get_current`: returns `shared_data['current']`. -/
def get_current (d : SharedData) : Current :=
  d.current

/-- The start-index scan of `get_history`: `start_idx = 0`, then the first
`i` with `timestamps[i] >= cutoff_time` (loop breaks there); `0` if none. -/
def findStartIdx (cutoff : ℚ) (ts : List ℚ) : Nat :=
  match ts.findIdx? (fun t => cutoff ≤ t) with
  | some i => i
  | none => 0

/-- Apply the same list transformation to every key of a history dict
(the `{key: ... for key, values in history.items()}` comprehensions). -/
def mapHistory (f : List ℚ → List ℚ) (h : History) : History :=
  ⟨f h.timestamps, f h.cpm_h, f h.cpm_l, f h.emf, f h.rf, f h.ef,
   f h.altitude, f h.velocity⟩

/-- The Python slice `xs[::step]` for `step ≥ 1`: the elements whose index is
a multiple of `step`. -/
def everyNth (step : Nat) (xs : List ℚ) : List ℚ :=
  (xs.enum.filter (fun p => p.1 % step = 0)).map Prod.snd

/-- The `/api/history` handler `get_history`: if the history is empty return
it unchanged; otherwise compute `cutoff = now - minutes*60`, slice every list
from the first in-window index, and if still longer than `max_points`
subsample every list with stride `len // max_points`. -/
def get_history (now : ℚ) (minutes : Int) (max_points : Nat)
    (d : SharedData) : History :=
  let history := d.history
  if history.timestamps = [] then history
  else
    let cutoff : ℚ := now - (minutes * 60 : Int)
    let start_idx := findStartIdx cutoff history.timestamps
    let filtered := mapHistory (fun values => values.drop start_idx) history
    if filtered.timestamps.length > max_points then
      let step := filtered.timestamps.length / max_points
      mapHistory (fun values => everyNth step values) filtered
    else
      filtered

/-- One `{min, max, avg}` summary of `get_stats`. -/
structure ChannelStats where
  min : ℚ
  max : ℚ
  avg : ℚ
deriving DecidableEq

/-- The inner `calc_stats` of `get_stats`: `{min: 0, max: 0, avg: 0}` for an
empty list, else Python's `min`, `max` and `sum/len`. -/
def calc_stats (values : List ℚ) : ChannelStats :=
  match values with
  | [] => ⟨0, 0, 0⟩
  | x :: xs => ⟨xs.foldl min x, xs.foldl max x, (x :: xs).sum / (x :: xs).length⟩

/-- The successful `/api/stats` response object. -/
structure Stats where
  cpm_h : ChannelStats
  cpm_l : ChannelStats
  emf : ChannelStats
  rf : ChannelStats
  ef : ChannelStats
  altitude : ChannelStats
  velocity : ChannelStats
  data_points : Nat
  time_range_seconds : ℚ
deriving DecidableEq

/-- The `/api/stats` handler `get_stats`: a 404 "No data available" error when
the timestamps list is empty, otherwise per-channel summaries over the whole
retained history plus `data_points` and `time_range_seconds`. -/
def get_stats (d : SharedData) : Except (String × Nat) Stats :=
  let history := d.history
  if history.timestamps = [] then
    Except.error ("No data available", 404)
  else
    Except.ok
      { cpm_h := calc_stats history.cpm_h
        cpm_l := calc_stats history.cpm_l
        emf := calc_stats history.emf
        rf := calc_stats history.rf
        ef := calc_stats history.ef
        altitude := calc_stats history.altitude
        velocity := calc_stats history.velocity
        data_points := history.timestamps.length
        time_range_seconds :=
          if history.timestamps.length > 1 then
            history.timestamps.getLastD 0 - history.timestamps.headD 0
          else 0 }

/-! ### WebSocket broadcast (`broadcast_to_websockets` in `api_server.py`) -/

/-- The `for ws in ws_clients` loop of `broadcast_to_websockets`:
each client's `ws.send` is attempted inside its own `try`; a successful send
is delivered, a failing one is added to the `disconnected` set. The send
outcome per client is given by the environment function `sendOk`. Returns
`(delivered, disconnected)`. -/
def broadcastLoop (sendOk : Nat → Bool) : List Nat → List Nat × List Nat
  | [] => ([], [])
  | ws :: rest =>
    if sendOk ws then
      (ws :: (broadcastLoop sendOk rest).1, (broadcastLoop sendOk rest).2)
    else
      ((broadcastLoop sendOk rest).1, ws :: (broadcastLoop sendOk rest).2)

/-- `broadcast_to_websockets`: run the send loop over the client set, then
`ws_clients.difference_update(disconnected)`. Returns the delivered list and
the surviving client set. -/
def broadcast_to_websockets (sendOk : Nat → Bool) (clients : List Nat) :
    List Nat × List Nat :=
  let run := broadcastLoop sendOk clients
  (run.1, clients.filter (fun c => decide (c ∉ run.2)))

/-! ### Background reader loops (`graph_faster.py`) -/

/-- `max_consecutive_errors` in both reader loops. -/
def max_consecutive_errors : Nat := 10

/-- `max_reconnect_attempts` in both reader loops. -/
def max_reconnect_attempts : Nat := 3

/-- State of `cpm_reader_loop`: the two shared channel values and the loop's
local counters. `connected` models whether `ser_500` currently holds an open
connection; `reconnects_done` counts the `serial.Serial(...)` reopen calls
actually performed. -/
structure CpmState where
  cpm_h_value : ℚ
  cpm_l_value : ℚ
  consecutive_errors : Nat
  reconnect_attempts : Nat
  read_count : Nat
  reconnects_done : Nat
  connected : Bool
deriving DecidableEq

/-- The state of the loop counters right after thread start. -/
def initCpmState : CpmState :=
  ⟨0, 0, 0, 0, 0, 0, true⟩

/-- What one iteration of `cpm_reader_loop` observed from the device:
either both 4-byte reads completed (with the raw bytes of each response),
or the iteration raised. `serialExc` is a `serial.SerialException`; `ioError`
tells whether its message contains "Input/output error" or "write failed",
and `reconnectOk` whether the reopen call, if reached, succeeds. `otherExc`
is any other exception. -/
inductive CpmIterOutcome where
  | polled (respH respL : List Nat)
  | serialExc (ioError reconnectOk : Bool)
  | otherExc
deriving DecidableEq

/-- Python's `int.from_bytes(resp, "big")`. -/
def intFromBytesBE (bs : List Nat) : Nat :=
  bs.foldl (fun acc b => acc * 256 + b) 0

/-- The `if consecutive_errors >= max_consecutive_errors` tail of both
exception handlers: log and reset the counter to 0; no reconnect happens
here. -/
def resetIfThreshold (s : CpmState) : CpmState :=
  if s.consecutive_errors ≥ max_consecutive_errors then
    { s with consecutive_errors := 0 }
  else s

/-- One iteration of the `while True` body of `cpm_reader_loop`.

* `polled respH respL`: the CPM_H response updates `cpm_h_value` and resets
  both counters only when it is exactly 4 bytes (`if len(resp) == 4`);
  otherwise only a warning is logged. The CPM_L response likewise updates
  only `cpm_l_value` when 4 bytes long.
* `serialExc`: `consecutive_errors += 1`; when the message marks an I/O
  error the connection is closed, `reconnect_attempts += 1`, and if the
  attempt budget is not exhausted a reopen is attempted (success resets
  `consecutive_errors` and `continue`s, skipping the threshold check);
  otherwise `reconnect_attempts` is reset. The threshold check then only
  resets the error counter.
* `otherExc`: `consecutive_errors += 1` followed by the threshold check. -/
def cpm_iter (s : CpmState) (o : CpmIterOutcome) : CpmState :=
  match o with
  | .polled respH respL =>
    let s1 :=
      if respH.length = 4 then
        { s with cpm_h_value := (intFromBytesBE respH : ℚ)
                 consecutive_errors := 0
                 reconnect_attempts := 0
                 read_count := s.read_count + 1 }
      else s
    if respL.length = 4 then
      { s1 with cpm_l_value := (intFromBytesBE respL : ℚ) }
    else s1
  | .serialExc ioError reconnectOk =>
    let s1 := { s with consecutive_errors := s.consecutive_errors + 1 }
    if ioError then
      let s2 := { s1 with connected := false
                          reconnect_attempts := s1.reconnect_attempts + 1 }
      if s2.reconnect_attempts ≤ max_reconnect_attempts then
        let s3 := { s2 with reconnects_done := s2.reconnects_done + 1 }
        if reconnectOk then
          { s3 with connected := true, consecutive_errors := 0 }
        else
          resetIfThreshold s3
      else
        resetIfThreshold { s2 with reconnect_attempts := 0 }
    else
      resetIfThreshold s1
  | .otherExc =>
    resetIfThreshold { s with consecutive_errors := s.consecutive_errors + 1 }

/-- A run of consecutive `cpm_reader_loop` iterations. -/
def cpm_run (s : CpmState) (os : List CpmIterOutcome) : CpmState :=
  os.foldl cpm_iter s

/-- State of `emf_reader_loop`: the three shared channel values plus the same
loop-local counters as the CPM loop. -/
structure EmfState where
  emf_value : ℚ
  ef_value : ℚ
  rf_value : ℚ
  consecutive_errors : Nat
  reconnect_attempts : Nat
  read_count : Nat
  reconnects_done : Nat
  connected : Bool
deriving DecidableEq

/-- The state of the EMF loop counters right after thread start. -/
def initEmfState : EmfState :=
  ⟨0, 0, 0, 0, 0, 0, 0, true⟩

/-- What one iteration of `emf_reader_loop` observed: the three decoded
response strings (empty string when `_read_response_bg` returned nothing),
or an exception, classified as in the CPM loop. -/
inductive EmfIterOutcome where
  | polled (rEmf rEf rRf : String)
  | serialExc (ioError reconnectOk : Bool)
  | otherExc

/-- The token extraction `float(r.split(' ')[i])` of `emf_reader_loop`:
`none` models the `IndexError` of a missing token or the `ValueError` of a
non-numeric token (both are caught and only logged). `parseFloat` is the
environment's numeric parser for Python's `float`. -/
def tokenFloat (parseFloat : String → Option ℚ) (i : Nat) (r : String) :
    Option ℚ :=
  match (r.splitOn (" ")).get? i with
  | some tok => parseFloat tok
  | none => none

/-- The threshold check of `emf_reader_loop`'s exception handlers. -/
def emfResetIfThreshold (s : EmfState) : EmfState :=
  if s.consecutive_errors ≥ max_consecutive_errors then
    { s with consecutive_errors := 0 }
  else s

/-- One iteration of the `while True` body of `emf_reader_loop`. Each of the
three responses is handled only when non-empty (`if r:`); a successful EMF
parse stores the value and resets both counters, a successful EF or RF parse
only stores the value, and a parse failure is logged without touching any
counter. The exception handlers are the same as in `cpm_iter`. -/
def emf_iter (parseFloat : String → Option ℚ) (s : EmfState)
    (o : EmfIterOutcome) : EmfState :=
  match o with
  | .polled rEmf rEf rRf =>
    let s1 :=
      if rEmf ≠ "" then
        match tokenFloat parseFloat 2 rEmf with
        | some v =>
          { s with emf_value := v
                   consecutive_errors := 0
                   reconnect_attempts := 0
                   read_count := s.read_count + 1 }
        | none => s
      else s
    let s2 :=
      if rEf ≠ "" then
        match tokenFloat parseFloat 2 rEf with
        | some v => { s1 with ef_value := v }
        | none => s1
      else s1
    if rRf ≠ "" then
      match tokenFloat parseFloat 0 rRf with
      | some v => { s2 with rf_value := v }
      | none => s2
    else s2
  | .serialExc ioError reconnectOk =>
    let s1 := { s with consecutive_errors := s.consecutive_errors + 1 }
    if ioError then
      let s2 := { s1 with connected := false
                          reconnect_attempts := s1.reconnect_attempts + 1 }
      if s2.reconnect_attempts ≤ max_reconnect_attempts then
        let s3 := { s2 with reconnects_done := s2.reconnects_done + 1 }
        if reconnectOk then
          { s3 with connected := true, consecutive_errors := 0 }
        else
          emfResetIfThreshold s3
      else
        emfResetIfThreshold { s2 with reconnect_attempts := 0 }
    else
      emfResetIfThreshold s1
  | .otherExc =>
    emfResetIfThreshold { s with consecutive_errors := s.consecutive_errors + 1 }

/-! ### JSON views of the responses

`jsonify` serialises the Python dicts; these views record the key/value
pairs each handler's response carries, in dict insertion order. -/

/-- Key/value pairs of the `/api/current` response object. -/
def currentToPairs (c : Current) : List (String × ℚ) :=
  [("timestamp", c.timestamp), ("cpm_h", c.cpm_h), ("cpm_l", c.cpm_l),
   ("emf", c.emf), ("rf", c.rf), ("ef", c.ef), ("altitude", c.altitude),
   ("latitude", c.latitude), ("longitude", c.longitude),
   ("velocity", c.velocity)]

/-- Key/value pairs of a serialised history dict (the `/api/history`
response). -/
def historyToPairs (h : History) : List (String × List ℚ) :=
  [("timestamps", h.timestamps), ("cpm_h", h.cpm_h), ("cpm_l", h.cpm_l),
   ("emf", h.emf), ("rf", h.rf), ("ef", h.ef), ("altitude", h.altitude),
   ("velocity", h.velocity)]

/-- A value of the `/api/stats` response dict: either a `{min,max,avg}`
summary, the integer `data_points`, or the numeric `time_range_seconds`. -/
inductive StatVal where
  | summary (c : ChannelStats)
  | count (n : Nat)
  | num (q : ℚ)
deriving DecidableEq

/-- Key/value pairs of the successful `/api/stats` response object. -/
def statsToPairs (st : Stats) : List (String × StatVal) :=
  [("cpm_h", .summary st.cpm_h), ("cpm_l", .summary st.cpm_l),
   ("emf", .summary st.emf), ("rf", .summary st.rf), ("ef", .summary st.ef),
   ("altitude", .summary st.altitude), ("velocity", .summary st.velocity),
   ("data_points", .count st.data_points),
   ("time_range_seconds", .num st.time_range_seconds)]

/-! ### Spec-side definition for the stats refinement claim -/

/-- Modelled from the spec: `readStats(windowSeconds)` as the specification
describes it — per-channel `{min,max,avg}` computed over the same
time-filtered window that `readHistory` uses, that is, only over entries
whose timestamp is at least `now - windowSeconds`. The source's `get_stats`
has no window parameter; this definition exists solely to be compared
against it. -/
def readStatsWindowedSpec (now windowSeconds : ℚ) (d : SharedData) :
    Except (String × Nat) Stats :=
  let cutoff := now - windowSeconds
  let keep : List ℚ → List ℚ := fun values =>
    (values.zip d.history.timestamps).filterMap
      (fun p => if cutoff ≤ p.2 then some p.1 else none)
  let ts := (d.history.timestamps).filter (fun t => decide (cutoff ≤ t))
  if ts = [] then
    Except.error ("No data available", 404)
  else
    Except.ok
      { cpm_h := calc_stats (keep d.history.cpm_h)
        cpm_l := calc_stats (keep d.history.cpm_l)
        emf := calc_stats (keep d.history.emf)
        rf := calc_stats (keep d.history.rf)
        ef := calc_stats (keep d.history.ef)
        altitude := calc_stats (keep d.history.altitude)
        velocity := calc_stats (keep d.history.velocity)
        data_points := ts.length
        time_range_seconds :=
          if ts.length > 1 then ts.getLastD 0 - ts.headD 0 else 0 }

/-- The keys of the `/api/stats` HTTP response: none when the handler
answered with the 404 error object, the stats dict's keys otherwise. -/
def statsRespKeys : Except (String × Nat) Stats → List String
  | .error _ => []
  | .ok st => (statsToPairs st).map Prod.fst

/-- `c` is the `{min, max, avg}` summary of all of `vs`: its min is a member
of `vs` and a lower bound of it, its max a member and an upper bound, and its
avg the sum of all of `vs` over its length. -/
def SummarisesAll (c : ChannelStats) (vs : List ℚ) : Prop :=
  c.min ∈ vs ∧ (∀ x ∈ vs, c.min ≤ x) ∧
  c.max ∈ vs ∧ (∀ x ∈ vs, x ≤ c.max) ∧
  c.avg = vs.sum / vs.length

/-! ### Helper lemmas -/

/-- All eight history lists have length `n`. -/
def HistLens (h : History) (n : Nat) : Prop :=
  h.timestamps.length = n ∧ h.cpm_h.length = n ∧ h.cpm_l.length = n ∧
  h.emf.length = n ∧ h.rf.length = n ∧ h.ef.length = n ∧
  h.altitude.length = n ∧ h.velocity.length = n

lemma length_trimList (cap : Nat) (hcap : 1 ≤ cap) (xs : List ℚ) :
    (trimList cap xs).length = min xs.length cap := by
  unfold trimList pySliceLast
  split
  · rw [if_neg (by omega)]
    simp only [List.length_drop]
    omega
  · omega

lemma trimList_append_full (cap : Nat) (hcap : 1 ≤ cap) (xs : List ℚ) (v : ℚ)
    (hlen : xs.length = cap) : trimList cap (xs ++ [v]) = xs.tail ++ [v] := by
  unfold trimList pySliceLast
  rw [if_pos (by simp; omega), if_neg (by omega)]
  have hdrop : (xs ++ [v]).length - cap = 1 := by simp; omega
  rw [hdrop]
  cases xs with
  | nil => simp at hlen; omega
  | cons a as => simp

lemma histLens_updateCap (cap : Nat) (hcap : 1 ≤ cap) (s : Sample)
    (d : SharedData) (n : Nat) (hd : HistLens d.history n) :
    HistLens (updateCap cap s d).history (min (n + 1) cap) := by
  obtain ⟨h1, h2, h3, h4, h5, h6, h7, h8⟩ := hd
  refine ⟨?_, ?_, ?_, ?_, ?_, ?_, ?_, ?_⟩ <;>
    simp [updateCap, trimHistory, appendSample, length_trimList cap hcap,
      h1, h2, h3, h4, h5, h6, h7, h8]

lemma histLens_applyWritesCap_aux (cap : Nat) (hcap : 1 ≤ cap) :
    ∀ (ws : List Sample) (d : SharedData) (n : Nat), n ≤ cap →
      HistLens d.history n →
      HistLens (applyWritesCap cap d ws).history (min (n + ws.length) cap) := by
  intro ws
  induction ws with
  | nil =>
    intro d n hn hd
    simpa [applyWritesCap, Nat.min_eq_left hn] using hd
  | cons s rest ih =>
    intro d n hn hd
    have hstep := histLens_updateCap cap hcap s d n hd
    have hle : min (n + 1) cap ≤ cap := Nat.min_le_right _ _
    have h := ih (updateCap cap s d) (min (n + 1) cap) hle hstep
    have harith : min (min (n + 1) cap + rest.length) cap =
        min (n + (s :: rest).length) cap := by
      simp only [List.length_cons]
      omega
    rw [harith] at h
    simpa [applyWritesCap] using h

lemma histLens_init : HistLens initSharedData.history 0 := by
  refine ⟨rfl, rfl, rfl, rfl, rfl, rfl, rfl, rfl⟩

lemma histLens_applyWritesCap (cap : Nat) (hcap : 1 ≤ cap) (ws : List Sample) :
    HistLens (applyWritesCap cap initSharedData ws).history
      (min ws.length cap) := by
  have h := histLens_applyWritesCap_aux cap hcap ws initSharedData 0
    (by omega) histLens_init
  simpa using h

lemma applyWrites_eq_cap (d : SharedData) (ws : List Sample) :
    applyWrites d ws = applyWritesCap 1000 d ws := rfl

lemma foldl_min_le_init : ∀ (xs : List ℚ) (x : ℚ), xs.foldl min x ≤ x := by
  intro xs
  induction xs with
  | nil => intro x; exact le_refl x
  | cons a as ih =>
    intro x
    rw [List.foldl_cons]
    exact le_trans (ih (min x a)) (min_le_left _ _)

lemma foldl_min_le_mem : ∀ (xs : List ℚ) (x y : ℚ), y ∈ xs →
    xs.foldl min x ≤ y := by
  intro xs
  induction xs with
  | nil => intro x y hy; simp at hy
  | cons a as ih =>
    intro x y hy
    rw [List.foldl_cons]
    rcases List.mem_cons.mp hy with h0 | h0
    · subst h0
      exact le_trans (foldl_min_le_init as (min x y)) (min_le_right _ _)
    · exact ih (min x a) y h0

lemma foldl_min_mem : ∀ (xs : List ℚ) (x : ℚ), xs.foldl min x ∈ x :: xs := by
  intro xs
  induction xs with
  | nil => intro x; simp
  | cons a as ih =>
    intro x
    rw [List.foldl_cons]
    rcases List.mem_cons.mp (ih (min x a)) with h0 | h0
    · rw [h0]
      rcases le_total x a with hxa | hxa
      · rw [min_eq_left hxa]
        exact List.mem_cons_self _ _
      · rw [min_eq_right hxa]
        exact List.mem_cons_of_mem _ (List.mem_cons_self _ _)
    · exact List.mem_cons_of_mem _ (List.mem_cons_of_mem _ h0)

lemma le_foldl_max_init : ∀ (xs : List ℚ) (x : ℚ), x ≤ xs.foldl max x := by
  intro xs
  induction xs with
  | nil => intro x; exact le_refl x
  | cons a as ih =>
    intro x
    rw [List.foldl_cons]
    exact le_trans (le_max_left _ _) (ih (max x a))

lemma le_foldl_max_mem : ∀ (xs : List ℚ) (x y : ℚ), y ∈ xs →
    y ≤ xs.foldl max x := by
  intro xs
  induction xs with
  | nil => intro x y hy; simp at hy
  | cons a as ih =>
    intro x y hy
    rw [List.foldl_cons]
    rcases List.mem_cons.mp hy with h0 | h0
    · subst h0
      exact le_trans (le_max_right _ _) (le_foldl_max_init as (max x y))
    · exact ih (max x a) y h0

lemma foldl_max_mem : ∀ (xs : List ℚ) (x : ℚ), xs.foldl max x ∈ x :: xs := by
  intro xs
  induction xs with
  | nil => intro x; simp
  | cons a as ih =>
    intro x
    rw [List.foldl_cons]
    rcases List.mem_cons.mp (ih (max x a)) with h0 | h0
    · rw [h0]
      rcases le_total x a with hxa | hxa
      · rw [max_eq_right hxa]
        exact List.mem_cons_of_mem _ (List.mem_cons_self _ _)
      · rw [max_eq_left hxa]
        exact List.mem_cons_self _ _
    · exact List.mem_cons_of_mem _ (List.mem_cons_of_mem _ h0)

lemma calc_stats_summarisesAll (vs : List ℚ) (hvs : vs ≠ []) :
    SummarisesAll (calc_stats vs) vs := by
  cases vs with
  | nil => exact absurd rfl hvs
  | cons x xs =>
    refine ⟨foldl_min_mem xs x, ?_, foldl_max_mem xs x, ?_, rfl⟩
    · intro y hy
      rcases List.mem_cons.mp hy with h0 | h0
      · subst h0
        exact foldl_min_le_init xs y
      · exact foldl_min_le_mem xs x y h0
    · intro y hy
      rcases List.mem_cons.mp hy with h0 | h0
      · subst h0
        exact le_foldl_max_init xs y
      · exact le_foldl_max_mem xs x y h0

lemma broadcastLoop_fst (sendOk : Nat → Bool) :
    ∀ l : List Nat, (broadcastLoop sendOk l).1 = l.filter sendOk := by
  intro l
  induction l with
  | nil => rfl
  | cons ws rest ih =>
    cases hok : sendOk ws with
    | true => simp [broadcastLoop, hok, List.filter_cons, ih]
    | false => simp [broadcastLoop, hok, List.filter_cons, ih]

lemma broadcastLoop_snd (sendOk : Nat → Bool) :
    ∀ l : List Nat,
      (broadcastLoop sendOk l).2 = l.filter (fun c => !(sendOk c)) := by
  intro l
  induction l with
  | nil => rfl
  | cons ws rest ih =>
    cases hok : sendOk ws with
    | true => simp [broadcastLoop, hok, List.filter_cons, ih]
    | false => simp [broadcastLoop, hok, List.filter_cons, ih]

lemma broadcast_remaining (sendOk : Nat → Bool) (clients : List Nat) :
    (broadcast_to_websockets sendOk clients).2 = clients.filter sendOk := by
  show clients.filter
      (fun c => decide (c ∉ (broadcastLoop sendOk clients).2)) =
    clients.filter sendOk
  rw [broadcastLoop_snd]
  apply List.filter_congr
  intro c hc
  cases hok : sendOk c with
  | true => simp [List.mem_filter, hok]
  | false => simp [List.mem_filter, hc, hok]

lemma resetIfThreshold_reconnects_done (s : CpmState) :
    (resetIfThreshold s).reconnects_done = s.reconnects_done := by
  unfold resetIfThreshold
  split <;> rfl

/-! ### Claim theorems -/

/-- C7: after any sequence of writes ending in write `w`, `get_current`
returns exactly `w`'s values — the whole current snapshot is replaced by the
latest write, for every channel, so no write to another channel can alter
what write `w` stored. -/
theorem current_reflects_last_write :
    ∀ (ws : List Sample) (w : Sample),
      get_current (applyWrites initSharedData (ws ++ [w])) =
        currentOfSample w := by
  intro ws w
  unfold applyWrites
  rw [List.foldl_append]
  rfl

/-- C8: with zero samples ever written the history is empty, and `get_stats`
answers with the explicit 404 "No data available" error object, never a
numeric stats object. -/
theorem stats_no_data_error :
    get_stats (applyWrites initSharedData []) =
      Except.error ("No data available", 404) := rfl

/-- C9: after every sequence of writes all eight history lists have exactly
the same length. -/
theorem history_lists_equal_length :
    ∀ ws : List Sample,
      (applyWrites initSharedData ws).history.cpm_h.length =
        (applyWrites initSharedData ws).history.timestamps.length ∧
      (applyWrites initSharedData ws).history.cpm_l.length =
        (applyWrites initSharedData ws).history.timestamps.length ∧
      (applyWrites initSharedData ws).history.emf.length =
        (applyWrites initSharedData ws).history.timestamps.length ∧
      (applyWrites initSharedData ws).history.rf.length =
        (applyWrites initSharedData ws).history.timestamps.length ∧
      (applyWrites initSharedData ws).history.ef.length =
        (applyWrites initSharedData ws).history.timestamps.length ∧
      (applyWrites initSharedData ws).history.altitude.length =
        (applyWrites initSharedData ws).history.timestamps.length ∧
      (applyWrites initSharedData ws).history.velocity.length =
        (applyWrites initSharedData ws).history.timestamps.length := by
  intro ws
  rw [applyWrites_eq_cap]
  obtain ⟨h1, h2, h3, h4, h5, h6, h7, h8⟩ :=
    histLens_applyWritesCap 1000 (by omega) ws
  exact ⟨h2.trans h1.symm, h3.trans h1.symm, h4.trans h1.symm,
    h5.trans h1.symm, h6.trans h1.symm, h7.trans h1.symm, h8.trans h1.symm⟩

/-- C6: broadcasting is per-subscriber best effort — every subscriber whose
send succeeds receives the update (it is in the delivered list), a failing
subscriber is removed from the client set, and the surviving set is exactly
the subscribers whose send succeeded, so one failure removes only that
subscriber. The loop itself is a total function: no exception escapes it. -/
theorem broadcast_failure_isolated :
    ∀ (sendOk : Nat → Bool) (clients : List Nat),
      (broadcast_to_websockets sendOk clients).1 = clients.filter sendOk ∧
      (broadcast_to_websockets sendOk clients).2 = clients.filter sendOk ∧
      (∀ c ∈ clients, sendOk c = false →
        c ∉ (broadcast_to_websockets sendOk clients).2) ∧
      (∀ c ∈ clients, sendOk c = true →
        c ∈ (broadcast_to_websockets sendOk clients).1) := by
  intro sendOk clients
  have h2 := broadcast_remaining sendOk clients
  refine ⟨broadcastLoop_fst sendOk clients, h2, ?_, ?_⟩
  · intro c hc hbad
    rw [h2]
    simp [List.mem_filter, hbad]
  · intro c hc hok
    show c ∈ (broadcastLoop sendOk clients).1
    rw [broadcastLoop_fst]
    exact List.mem_filter.mpr ⟨hc, hok⟩

/-- C6 witness: with subscribers `[0, 1, 2]` and sends failing exactly for
subscriber `1`, subscriber `1` is removed from the surviving set. -/
theorem broadcast_failure_isolated_witness :
    (1 : Nat) ∉
      (broadcast_to_websockets (fun c => decide (c ≠ 1)) [0, 1, 2]).2 :=
  (broadcast_failure_isolated (fun c => decide (c ≠ 1)) [0, 1, 2]).2.2.1
    1 (by decide) (by decide)

/-- C10: the current snapshot response carries `latitude` and `longitude`
keys, but for every sequence of writes neither the history response nor the
stats response carries a `latitude` or `longitude` series. -/
theorem latlon_absent_from_history_and_stats :
    ∀ (ws : List Sample) (now : ℚ) (minutes : Int) (maxPoints : Nat),
      "latitude" ∉ (historyToPairs
        (get_history now minutes maxPoints
          (applyWrites initSharedData ws))).map Prod.fst ∧
      "longitude" ∉ (historyToPairs
        (get_history now minutes maxPoints
          (applyWrites initSharedData ws))).map Prod.fst ∧
      "latitude" ∉ statsRespKeys (get_stats (applyWrites initSharedData ws)) ∧
      "longitude" ∉ statsRespKeys (get_stats (applyWrites initSharedData ws)) ∧
      "latitude" ∈ (currentToPairs
        (get_current (applyWrites initSharedData ws))).map Prod.fst ∧
      "longitude" ∈ (currentToPairs
        (get_current (applyWrites initSharedData ws))).map Prod.fst := by
  intro ws now minutes maxPoints
  refine ⟨?_, ?_, ?_, ?_, ?_, ?_⟩
  · simp only [historyToPairs, List.map]
    decide
  · simp only [historyToPairs, List.map]
    decide
  · cases hg : get_stats (applyWrites initSharedData ws) with
    | error e => simp [statsRespKeys]
    | ok st =>
      simp only [statsRespKeys, statsToPairs, List.map]
      decide
  · cases hg : get_stats (applyWrites initSharedData ws) with
    | error e => simp [statsRespKeys]
    | ok st =>
      simp only [statsRespKeys, statsToPairs, List.map]
      decide
  · simp only [currentToPairs, List.map]
    decide
  · simp only [currentToPairs, List.map]
    decide

/-- C1: evaluation of `get_history` at a failing input. With retained
timestamps `[0, 1, 2]` (all channels equal), `now = 200`, `minutes = 1`
(so the window cutoff is `140`) and `points = 2`, the handler returns all
three points: the returned length exceeds `maxPoints = 2` (the stride is
`3 / 2 = 1`, which drops nothing), and the returned timestamp `0` lies
outside `[now - window, now]` because the start-index scan falls back to
`0` when no timestamp reaches the cutoff. This contradicts the handler's
own docstring for `minutes` and `points`. -/
theorem get_history_breaks_own_bounds :
    (get_history 200 1 2
        ⟨initCurrent, ⟨[0, 1, 2], [0, 1, 2], [0, 1, 2], [0, 1, 2], [0, 1, 2],
          [0, 1, 2], [0, 1, 2], [0, 1, 2]⟩⟩).timestamps = [0, 1, 2] ∧
    2 < (get_history 200 1 2
        ⟨initCurrent, ⟨[0, 1, 2], [0, 1, 2], [0, 1, 2], [0, 1, 2], [0, 1, 2],
          [0, 1, 2], [0, 1, 2], [0, 1, 2]⟩⟩).timestamps.length ∧
    (0 : ℚ) ∈ (get_history 200 1 2
        ⟨initCurrent, ⟨[0, 1, 2], [0, 1, 2], [0, 1, 2], [0, 1, 2], [0, 1, 2],
          [0, 1, 2], [0, 1, 2], [0, 1, 2]⟩⟩).timestamps ∧
    (0 : ℚ) < 200 - (((1 : Int) * 60 : Int) : ℚ) := by
  have hmain : (get_history 200 1 2
      ⟨initCurrent, ⟨[0, 1, 2], [0, 1, 2], [0, 1, 2], [0, 1, 2], [0, 1, 2],
        [0, 1, 2], [0, 1, 2], [0, 1, 2]⟩⟩).timestamps = [0, 1, 2] := by
    have hcut : ((200 : ℚ) - ((1 * 60 : Int) : ℚ)) = 140 := by norm_num
    simp only [get_history]
    rw [if_neg (by decide)]
    rw [hcut]
    rfl
  refine ⟨hmain, ?_, ?_, by norm_num⟩
  · rw [hmain]
    decide
  · rw [hmain]
    decide

/-- C2: (1) with the source's cap of 1000, no history list ever exceeds
1000 entries; (2) once a list holds exactly `cap` entries, one further
write evicts exactly the oldest entry of every list and appends the new
sample at the end (FIFO); (3) the cap-2 scenario: writing samples with
`(t, cpm_h)` equal to `(0, 12)`, `(1, 15)`, `(2, 9)` leaves the CPM-high
series at `[(1, 15), (2, 9)]`. -/
theorem history_cap_and_fifo :
    (∀ ws : List Sample,
      (applyWrites initSharedData ws).history.timestamps.length ≤ 1000 ∧
      (applyWrites initSharedData ws).history.cpm_h.length ≤ 1000 ∧
      (applyWrites initSharedData ws).history.cpm_l.length ≤ 1000 ∧
      (applyWrites initSharedData ws).history.emf.length ≤ 1000 ∧
      (applyWrites initSharedData ws).history.rf.length ≤ 1000 ∧
      (applyWrites initSharedData ws).history.ef.length ≤ 1000 ∧
      (applyWrites initSharedData ws).history.altitude.length ≤ 1000 ∧
      (applyWrites initSharedData ws).history.velocity.length ≤ 1000) ∧
    (∀ (cap : Nat) (s : Sample) (d : SharedData), 1 ≤ cap →
      HistLens d.history cap →
      (updateCap cap s d).history.timestamps =
        d.history.timestamps.tail ++ [s.timestamp] ∧
      (updateCap cap s d).history.cpm_h =
        d.history.cpm_h.tail ++ [s.cpm_h] ∧
      (updateCap cap s d).history.cpm_l =
        d.history.cpm_l.tail ++ [s.cpm_l] ∧
      (updateCap cap s d).history.emf = d.history.emf.tail ++ [s.emf] ∧
      (updateCap cap s d).history.rf = d.history.rf.tail ++ [s.rf] ∧
      (updateCap cap s d).history.ef = d.history.ef.tail ++ [s.ef] ∧
      (updateCap cap s d).history.altitude =
        d.history.altitude.tail ++ [s.altitude] ∧
      (updateCap cap s d).history.velocity =
        d.history.velocity.tail ++ [s.velocity]) ∧
    ((applyWritesCap 2 initSharedData
        [⟨0, 12, 0, 0, 0, 0, 0, 0, 0, 0⟩, ⟨1, 15, 0, 0, 0, 0, 0, 0, 0, 0⟩,
         ⟨2, 9, 0, 0, 0, 0, 0, 0, 0, 0⟩]).history.timestamps = [1, 2] ∧
     (applyWritesCap 2 initSharedData
        [⟨0, 12, 0, 0, 0, 0, 0, 0, 0, 0⟩, ⟨1, 15, 0, 0, 0, 0, 0, 0, 0, 0⟩,
         ⟨2, 9, 0, 0, 0, 0, 0, 0, 0, 0⟩]).history.cpm_h = [15, 9]) := by
  refine ⟨?_, ?_, by decide, by decide⟩
  · intro ws
    rw [applyWrites_eq_cap]
    obtain ⟨h1, h2, h3, h4, h5, h6, h7, h8⟩ :=
      histLens_applyWritesCap 1000 (by omega) ws
    refine ⟨?_, ?_, ?_, ?_, ?_, ?_, ?_, ?_⟩ <;> omega
  · intro cap s d hcap hd
    obtain ⟨h1, h2, h3, h4, h5, h6, h7, h8⟩ := hd
    simp only [updateCap, trimHistory, appendSample]
    exact ⟨trimList_append_full cap hcap _ _ h1,
      trimList_append_full cap hcap _ _ h2,
      trimList_append_full cap hcap _ _ h3,
      trimList_append_full cap hcap _ _ h4,
      trimList_append_full cap hcap _ _ h5,
      trimList_append_full cap hcap _ _ h6,
      trimList_append_full cap hcap _ _ h7,
      trimList_append_full cap hcap _ _ h8⟩

/-- C2 witness: at cap 1 with every history list holding one entry `5`, a
write with timestamp `7` evicts the `5` and leaves the timestamps list at
exactly `[7]`. -/
theorem history_cap_and_fifo_witness :
    (updateCap 1 ⟨7, 8, 0, 0, 0, 0, 0, 0, 0, 0⟩
      ⟨initCurrent, ⟨[5], [5], [5], [5], [5], [5], [5], [5]⟩⟩).history.timestamps
      = [(7 : ℚ)] := by
  have h := history_cap_and_fifo.2.1 1 ⟨7, 8, 0, 0, 0, 0, 0, 0, 0, 0⟩
    ⟨initCurrent, ⟨[5], [5], [5], [5], [5], [5], [5], [5]⟩⟩ (by omega)
    ⟨rfl, rfl, rfl, rfl, rfl, rfl, rfl, rfl⟩
  simpa using h.1

/-- C3 counterexample: with retained history `timestamps = [0, 100]` and
every channel `[10, 20]`, at `now = 100` with a 10-second window the
windowed average (spec reading) is `20`, but `get_stats` answers `15`:
the handler aggregates the entire retained history and takes no window
parameter at all. -/
theorem stats_include_out_of_window_points :
    ((get_stats ⟨initCurrent, ⟨[0, 100], [10, 20], [10, 20], [10, 20],
        [10, 20], [10, 20], [10, 20], [10, 20]⟩⟩).toOption.map
      (fun st => st.cpm_h.avg) = some 15) ∧
    ((readStatsWindowedSpec 100 10 ⟨initCurrent, ⟨[0, 100], [10, 20],
        [10, 20], [10, 20], [10, 20], [10, 20], [10, 20],
        [10, 20]⟩⟩).toOption.map
      (fun st => st.cpm_h.avg) = some 20) ∧
    (15 : ℚ) ≠ 20 := by
  refine ⟨?_, ?_, by norm_num⟩
  · simp only [get_stats]
    rw [if_neg (by decide)]
    simp only [Except.toOption, Option.map, calc_stats]
    norm_num
  · have hcut : ((100 : ℚ) - 10) = 90 := by norm_num
    simp only [readStatsWindowedSpec]
    rw [hcut]
    rw [if_neg (by decide)]
    simp only [Except.toOption, Option.map, calc_stats, List.zip,
      List.zipWith, List.filterMap]
    norm_num

/-- C3 amended: for every non-empty history `get_stats` succeeds, and the
returned per-channel `{min, max, avg}` summarise the entire retained
history — every retained entry, regardless of its timestamp, enters the
min, the max and the average — while `data_points` counts all retained
samples and `time_range_seconds` spans from the oldest to the newest
retained timestamp. -/
theorem stats_over_entire_history :
    (∀ d : SharedData, d.history.timestamps ≠ [] →
      ∃ st, get_stats d = Except.ok st) ∧
    (∀ (d : SharedData) (st : Stats), get_stats d = Except.ok st →
      st.data_points = d.history.timestamps.length ∧
      st.time_range_seconds =
        (if 1 < d.history.timestamps.length then
          d.history.timestamps.getLastD 0 - d.history.timestamps.headD 0
        else 0) ∧
      (d.history.cpm_h ≠ [] → SummarisesAll st.cpm_h d.history.cpm_h) ∧
      (d.history.cpm_l ≠ [] → SummarisesAll st.cpm_l d.history.cpm_l) ∧
      (d.history.emf ≠ [] → SummarisesAll st.emf d.history.emf) ∧
      (d.history.rf ≠ [] → SummarisesAll st.rf d.history.rf) ∧
      (d.history.ef ≠ [] → SummarisesAll st.ef d.history.ef) ∧
      (d.history.altitude ≠ [] →
        SummarisesAll st.altitude d.history.altitude) ∧
      (d.history.velocity ≠ [] →
        SummarisesAll st.velocity d.history.velocity)) := by
  constructor
  · intro d hd
    unfold get_stats
    rw [if_neg hd]
    exact ⟨_, rfl⟩
  · intro d st hst
    by_cases hd : d.history.timestamps = []
    · simp only [get_stats] at hst
      rw [if_pos hd] at hst
      cases hst
    · simp only [get_stats] at hst
      rw [if_neg hd] at hst
      obtain rfl := (Except.ok.inj hst).symm
      refine ⟨rfl, rfl, ?_, ?_, ?_, ?_, ?_, ?_, ?_⟩ <;>
        exact fun hne => calc_stats_summarisesAll _ hne

/-- C3 witness: for the two-point channel `[10, 20]` the summary produced
by the handler covers both points — including the one an in-window filter
would have discarded. -/
theorem stats_over_entire_history_witness :
    SummarisesAll (calc_stats [(10 : ℚ), 20]) [(10 : ℚ), 20] := by
  have h := stats_over_entire_history.2
    ⟨initCurrent, ⟨[0, 100], [10, 20], [10, 20], [10, 20], [10, 20],
      [10, 20], [10, 20], [10, 20]⟩⟩
    ⟨calc_stats [(10 : ℚ), 20], calc_stats [(10 : ℚ), 20],
     calc_stats [(10 : ℚ), 20], calc_stats [(10 : ℚ), 20],
     calc_stats [(10 : ℚ), 20], calc_stats [(10 : ℚ), 20],
     calc_stats [(10 : ℚ), 20], 2, (100 : ℚ) - 0⟩ rfl
  exact h.2.2.1 (by decide)

/-- C4 counterexample: ten consecutive malformed (wrong-length) polls from a
fresh reader state perform zero reconnect attempts — not the one the claim
requires — and leave the consecutive-error counter at zero as well. -/
theorem ten_malformed_polls_no_reconnect :
    (cpm_run initCpmState
      (List.replicate 10 (CpmIterOutcome.polled [0] [0]))).reconnects_done
      ≠ 1 ∧
    (cpm_run initCpmState
      (List.replicate 10 (CpmIterOutcome.polled [0] [0]))).reconnects_done
      = 0 ∧
    (cpm_run initCpmState
      (List.replicate 10 (CpmIterOutcome.polled [0] [0]))).consecutive_errors
      = 0 := ⟨by decide, by decide, by decide⟩

/-- C4 amended: malformed/truncated responses never trigger a reconnect —
any number of consecutive wrong-length polls leaves the reader state
(counters included) completely unchanged. A reconnect attempt is instead
performed immediately on each serial exception whose message marks an I/O
error, one reopen per exception while the attempt budget of 3 is not
exhausted; and when the consecutive-error counter (which only exceptions
advance) reaches the threshold of 10, the handler merely resets it to zero
with a backoff sleep, without reconnecting. -/
theorem reconnect_on_io_error_not_malformed :
    (∀ (n : Nat) (s : CpmState) (respH respL : List Nat),
      respH.length ≠ 4 → respL.length ≠ 4 →
      cpm_run s (List.replicate n (CpmIterOutcome.polled respH respL)) = s) ∧
    (∀ (s : CpmState) (reconnectOk : Bool),
      s.reconnect_attempts < max_reconnect_attempts →
      (cpm_iter s (CpmIterOutcome.serialExc true reconnectOk)).reconnects_done
        = s.reconnects_done + 1) ∧
    (∀ s : CpmState,
      (cpm_iter s CpmIterOutcome.otherExc).reconnects_done =
        s.reconnects_done ∧
      (max_consecutive_errors ≤ s.consecutive_errors + 1 →
        (cpm_iter s CpmIterOutcome.otherExc).consecutive_errors = 0)) := by
  have hone : ∀ (s : CpmState) (respH respL : List Nat),
      respH.length ≠ 4 → respL.length ≠ 4 →
      cpm_iter s (CpmIterOutcome.polled respH respL) = s := by
    intro s respH respL h1 h2
    simp [cpm_iter, h1, h2]
  refine ⟨?_, ?_, ?_⟩
  · intro n
    induction n with
    | zero => intro s respH respL h1 h2; rfl
    | succ m ih =>
      intro s respH respL h1 h2
      show cpm_run (cpm_iter s (CpmIterOutcome.polled respH respL))
        (List.replicate m (CpmIterOutcome.polled respH respL)) = s
      rw [hone s respH respL h1 h2]
      exact ih s respH respL h1 h2
  · intro s reconnectOk h
    have hle : s.reconnect_attempts + 1 ≤ max_reconnect_attempts := h
    simp only [cpm_iter, if_true]
    rw [if_pos hle]
    cases reconnectOk with
    | true => rfl
    | false =>
      rw [if_neg (by simp)]
      exact resetIfThreshold_reconnects_done _
  · intro s
    constructor
    · exact resetIfThreshold_reconnects_done _
    · intro h
      simp only [cpm_iter, resetIfThreshold]
      rw [if_pos h]

/-- C4 witness: a single serial I/O-error exception from the fresh state
(attempt budget unspent) performs exactly one reconnect attempt. -/
theorem reconnect_on_io_error_not_malformed_witness :
    (cpm_iter initCpmState
      (CpmIterOutcome.serialExc true true)).reconnects_done =
      initCpmState.reconnects_done + 1 :=
  reconnect_on_io_error_not_malformed.2.1 initCpmState true (by decide)

/-- C5 counterexample: a wrong-length (malformed) poll from the fresh state
leaves the consecutive-error counter at its previous value `0` instead of
incrementing it to `1`. -/
theorem malformed_poll_keeps_counter :
    (cpm_iter initCpmState
      (CpmIterOutcome.polled [1, 2] [1, 2])).consecutive_errors = 0 ∧
    (cpm_iter initCpmState
      (CpmIterOutcome.polled [1, 2] [1, 2])).consecutive_errors ≠
      initCpmState.consecutive_errors + 1 := ⟨by decide, by decide⟩

/-- C5 amended: a poll whose response fails to decode raises nothing out of
the step (the step functions are total), skips the sample — the stored
channel values stay exactly as they were — and leaves the consecutive-error
counter unchanged (the code only advances that counter on exceptions, not
on decode failures). This covers the wrong-length binary responses of the
CPM loop and the missing-token / non-numeric-token string responses of the
EMF loop. -/
theorem decode_failure_skips_sample :
    (∀ (s : CpmState) (respH respL : List Nat),
      respH.length ≠ 4 → respL.length ≠ 4 →
      (cpm_iter s (CpmIterOutcome.polled respH respL)).cpm_h_value =
        s.cpm_h_value ∧
      (cpm_iter s (CpmIterOutcome.polled respH respL)).cpm_l_value =
        s.cpm_l_value ∧
      (cpm_iter s (CpmIterOutcome.polled respH respL)).consecutive_errors =
        s.consecutive_errors) ∧
    (∀ (parseFloat : String → Option ℚ) (s : EmfState)
        (rEmf rEf rRf : String),
      tokenFloat parseFloat 2 rEmf = none →
      tokenFloat parseFloat 2 rEf = none →
      tokenFloat parseFloat 0 rRf = none →
      emf_iter parseFloat s (EmfIterOutcome.polled rEmf rEf rRf) = s) := by
  constructor
  · intro s respH respL h1 h2
    refine ⟨?_, ?_, ?_⟩ <;> simp [cpm_iter, h1, h2]
  · intro parseFloat s rEmf rEf rRf h1 h2 h3
    simp [emf_iter, h1, h2, h3]

/-- C5 witness: a truncated one-byte CPM-high response and an empty CPM-low
response leave the stored value and the error counter of the fresh state
untouched. -/
theorem decode_failure_skips_sample_witness :
    (cpm_iter initCpmState
      (CpmIterOutcome.polled [1] [])).cpm_h_value =
      initCpmState.cpm_h_value ∧
    (cpm_iter initCpmState
      (CpmIterOutcome.polled [1] [])).cpm_l_value =
      initCpmState.cpm_l_value ∧
    (cpm_iter initCpmState
      (CpmIterOutcome.polled [1] [])).consecutive_errors =
      initCpmState.consecutive_errors :=
  decode_failure_skips_sample.1 initCpmState [1] [] (by decide) (by decide)
